import Mathlib

/-!
Verification development for the "decked-out-analysis" repository.

The definitions below are shallow embeddings of the Python sources:
  - `src/deck.py`        : card registry, deck multiset algebra, deck parsing;
  - `src/data/parse.py`  : `calculate_deck_stats` deck-evolution simulation;
  - `src/data/plot.py`   : gap-bridging series computation and the
                           focus/visibility interaction state machine.

Python dicts are embedded as association lists (insertion ordered, unique
keys), raised exceptions as `Option`/`none` results, and the static card
catalogue as a fold over the registration calls in source order.  String
manipulation is implemented over `List Char` so that every definition
evaluates by kernel reduction.
-/

set_option maxRecDepth 8000

/-! ## Association-list helpers (Python `dict` semantics) -/

/-- First-match lookup, like reading a Python dict key (insertion order,
keys unique in a real dict). -/
def alookup {α : Type} (l : List (String × α)) (k : String) : Option α :=
  match l with
  | [] => none
  | (k', v) :: t => if k' = k then some v else alookup t k

/-- `d[k] = v` on a Python dict: overwrite the first occurrence, or append. -/
def alistSet {α : Type} (l : List (String × α)) (k : String) (v : α) :
    List (String × α) :=
  match l with
  | [] => [(k, v)]
  | (k', v') :: t => if k' = k then (k', v) :: t else (k', v') :: alistSet t k v

/-- `d[k] += v` on a `defaultdict(int)`: add to the first occurrence,
or append `(k, 0 + v)` at the end (new dict keys go last). -/
def alistAdd (l : List (String × Int)) (k : String) (v : Int) :
    List (String × Int) :=
  match l with
  | [] => [(k, v)]
  | (k', v') :: t => if k' = k then (k', v' + v) :: t else (k', v') :: alistAdd t k v

/-! ## Character/string helpers mirroring the Python operations used -/

/-- ASCII upper-casing of one character (`str.upper` on the catalogue's
ASCII names). -/
def upChar (c : Char) : Char :=
  match c with
  | 'a' => 'A' | 'b' => 'B' | 'c' => 'C' | 'd' => 'D' | 'e' => 'E' | 'f' => 'F'
  | 'g' => 'G' | 'h' => 'H' | 'i' => 'I' | 'j' => 'J' | 'k' => 'K' | 'l' => 'L'
  | 'm' => 'M' | 'n' => 'N' | 'o' => 'O' | 'p' => 'P' | 'q' => 'Q' | 'r' => 'R'
  | 's' => 'S' | 't' => 'T' | 'u' => 'U' | 'v' => 'V' | 'w' => 'W' | 'x' => 'X'
  | 'y' => 'Y' | 'z' => 'Z' | c => c

/-- Python `str.upper()`. -/
def upStr (s : String) : String := String.mk (s.data.map upChar)

/-- Whitespace as trimmed by Python `str.strip()` / split by `str.split()`
(space, tab, newline, carriage return cover all inputs in this code base). -/
def isSpaceChar (c : Char) : Bool :=
  c.toNat = 32 || c.toNat = 9 || c.toNat = 10 || c.toNat = 13

/-- Python `str.strip()`. -/
def pyStrip (s : String) : String :=
  String.mk (((s.data.dropWhile isSpaceChar).reverse.dropWhile isSpaceChar).reverse)

/-- Split a character list at every occurrence of `sep` (the pieces between
separators, in order; empty pieces kept). -/
def splitChar (sep : Char) : List Char → List (List Char)
  | [] => [[]]
  | c :: t =>
      let r := splitChar sep t
      if c = sep then [] :: r
      else
        match r with
        | h :: t' => (c :: h) :: t'
        | [] => [[c]]

/-- Python `str.split()` (split on whitespace runs, dropping empty pieces;
catalogue names only contain single spaces). -/
def pyWords (s : String) : List String :=
  ((splitChar ' ' s.data).filter (· ≠ [])).map String.mk

/-- First `n` characters of a string, Python `s[:n]`. -/
def strTake (s : String) (n : Nat) : String := String.mk (s.data.take n)

/-- Python `substring in s` test. -/
def containsSub (hay needle : String) : Bool :=
  hay.data.tails.any (fun t => needle.data.isPrefixOf t)

/-- Value of a nonempty digit string. -/
def digitsVal (ds : List Char) : Int :=
  ds.foldl (fun acc c => acc * 10 + (Int.ofNat (c.toNat - 48))) 0

/-- Digit character (`\d` over the ASCII inputs of this code base). -/
def isDigitChar (c : Char) : Bool := 48 ≤ c.toNat && c.toNat ≤ 57

/-- `[A-Z]` or digit, the character class of the 3-letter short codes. -/
def isUpperDigitChar (c : Char) : Bool :=
  (65 ≤ c.toNat && c.toNat ≤ 90) || isDigitChar c

/-- ASCII letter. -/
def isAlphaChar (c : Char) : Bool :=
  (65 ≤ c.toNat && c.toNat ≤ 90) || (97 ≤ c.toNat && c.toNat ≤ 122)

/-- Word character (`\w`) for the regex `,\w*` used by `Deck.from_str`. -/
def isWordChar (c : Char) : Bool := isAlphaChar c || isDigitChar c || c.toNat = 95

/-! ## Card model (`src/deck.py` lines 12-103) -/

inductive CardLevel
  | common | uncommon | rare | legendary | ethereal
deriving DecidableEq, Repr

/-- `CROWN_PRICE_POWER_FACTOR` -/
def CROWN_PRICE_POWER_FACTOR : Int := 5
/-- `EMBER_PRICE_POWER_FACTOR` -/
def EMBER_PRICE_POWER_FACTOR : Int := 1

/-- A fully initialised `Card` (after `__post_init__` has resolved `power`
and `short_name`). `is_ethereal` records whether the registration came from
the `EtherealCard` subclass (used by `isinstance(..., EtherealCard)` in
`Deck.strip_ethereal_cards`). -/
structure Card where
  name : String
  level : CardLevel
  price : Option Int
  limit : Option Int
  crowns_purchase : Bool
  power : Int
  permanent : Bool
  short_name : String
  is_ethereal : Bool
deriving DecidableEq, Repr

/-- The two class-level registries of `Card`:
`card_lookup` (short name -> card) and `name_map` (any name -> short name). -/
structure RegState where
  card_lookup : List (String × Card)
  name_map : List (String × String)
deriving DecidableEq, Repr

/-- Auto-generation of a card's short name (`Card.__post_init__`,
lines 60-71): one word takes its first 3 letters, two words take 2+1
letters, three or more take the first letters of the first, second and last
words; the result is upper-cased.  `none` models the `IndexError` raised on
a name with no words at all. -/
def genShortName (name : String) : Option String :=
  match pyWords name with
  | [] => none
  | [w] => some (upStr (strTake w 3))
  | [w1, w2] => some (upStr (strTake w1 2 ++ strTake w2 1))
  | w1 :: w2 :: rest =>
      some (upStr (strTake w1 1 ++ strTake w2 1 ++ strTake ((w2 :: rest).getLastD "") 1))

/-- The short name `Card.__post_init__` will end up with: the explicit
override when given, otherwise the auto-generated one (from the stripped
display name). -/
def resolvedShortName (name : String) (short_name : Option String) :
    Option String :=
  match short_name with
  | some s => some s
  | none => genShortName (pyStrip name)

/-- `Card.__post_init__` (lines 43-87), as a transition on the registries.
`none` models a raised `ValueError`: price and power both absent, a short
name that is not exactly 3 characters, a duplicate short name, or a
duplicate upper-cased full name. -/
def register (st : RegState) (name : String) (level : CardLevel)
    (price : Option Int) (limit : Option Int) (crowns_purchase : Bool)
    (power : Option Int) (permanent : Bool) (short_name : Option String)
    (is_ethereal : Bool) : Option RegState :=
  let name := pyStrip name
  let powOpt : Option Int :=
    match power with
    | some p => some p
    | none =>
        match price with
        | none => none
        | some pr =>
            some (pr * (if crowns_purchase then CROWN_PRICE_POWER_FACTOR
                        else EMBER_PRICE_POWER_FACTOR))
  match powOpt with
  | none => none
  | some pow =>
    match resolvedShortName name short_name with
    | none => none
    | some sn =>
      if sn.length ≠ 3 then none
      else if (alookup st.card_lookup sn).isSome then none
      else
        let lookup' := st.card_lookup ++
          [(sn, ⟨name, level, price, limit, crowns_purchase, pow, permanent, sn,
                 is_ethereal⟩)]
        let upperName := upStr name
        if (alookup st.name_map upperName).isSome then none
        else some ⟨lookup', alistSet (alistSet st.name_map upperName sn) sn sn⟩

/-- The arguments of one `Card(...)` / `EtherealCard(...)` /
`LegendaryCard(...)` registration call (defaults resolved). -/
structure RegArgs where
  name : String
  level : CardLevel
  price : Option Int
  limit : Option Int
  crowns_purchase : Bool
  power : Option Int
  permanent : Bool
  short_name : Option String
  is_ethereal : Bool

/-- Run one registration call. -/
def registerArgs (st : RegState) (a : RegArgs) : Option RegState :=
  register st a.name a.level a.price a.limit a.crowns_purchase a.power
    a.permanent a.short_name a.is_ethereal

/-- Run a block of registration calls in order. -/
def regMany (st : RegState) (l : List RegArgs) : Option RegState :=
  l.foldlM registerArgs st

/-- The 4 common cards (`src/deck.py` lines 285-288). -/
def commonArgs : List RegArgs :=
  [⟨"Sneak", .common, some 7, some 5, false, none, false, none, false⟩,
   ⟨"Stability", .common, some 8, some 5, false, none, false, none, false⟩,
   ⟨"Treasure Hunter", .common, some 9, some 5, false, none, false, none, false⟩,
   ⟨"Ember Seeker", .common, some 10, some 5, false, none, false, none, false⟩]

/-- The uncommon, rare and legendary cards (`src/deck.py` lines 300-334). -/
def mainArgs : List RegArgs :=
  [⟨"Evasion", .uncommon, some 16, some 3, false, none, false, none, false⟩,
   ⟨"Tread Lightly", .uncommon, some 18, some 3, false, none, false, none, false⟩,
   ⟨"Frost Focus", .uncommon, some 20, some 3, false, none, false, none, false⟩,
   ⟨"Loot and Scoot", .uncommon, some 20, some 3, false, none, false, none, false⟩,
   ⟨"Second Wind", .uncommon, some 22, some 3, false, none, false, none, false⟩,
   ⟨"Beast Sense", .uncommon, some 24, some 3, false, none, false, none, false⟩,
   ⟨"Bounding Strides", .uncommon, some 26, some 3, false, none, false, some "BST", false⟩,
   ⟨"Reckless Charge", .uncommon, some 28, some 3, false, none, false, none, false⟩,
   ⟨"Sprint", .uncommon, some 30, some 3, false, none, false, some "SPT", false⟩,
   ⟨"Nimble Looting", .uncommon, some 32, some 3, false, none, false, none, false⟩,
   ⟨"Smash and Grab", .uncommon, some 34, some 3, false, none, false, none, false⟩,
   ⟨"Quickstep", .uncommon, some 36, some 3, false, none, false, none, false⟩,
   ⟨"Suit Up", .uncommon, some 38, some 1, false, none, true, none, false⟩,
   ⟨"Adrenaline Rush", .uncommon, some 40, some 3, false, none, false, none, false⟩,
   ⟨"Eerie Silence", .rare, some 46, some 3, false, none, false, none, false⟩,
   ⟨"Dungeon Repairs", .rare, some 48, some 3, false, none, false, none, false⟩,
   ⟨"Swagger", .rare, some 50, some 3, false, none, false, none, false⟩,
   ⟨"Chill Step", .rare, some 52, some 3, false, none, false, none, false⟩,
   ⟨"Speed Runner", .rare, some 54, some 3, false, none, true, none, false⟩,
   ⟨"Eyes on the Prize", .rare, some 56, some 3, false, none, false, none, false⟩,
   ⟨"Haste", .rare, some 60, some 3, false, none, false, none, false⟩,
   ⟨"Cold Snap", .rare, some 62, some 3, false, none, false, none, false⟩,
   ⟨"Silent Runner", .rare, some 64, some 3, false, none, true, none, false⟩,
   ⟨"Fuzzy Bunny Slippers", .rare, some 66, some 3, false, none, true, none, false⟩,
   ⟨"Deepfrost", .rare, some 68, some 3, false, none, false, some "DEF", false⟩,
   ⟨"Brilliance", .rare, some 70, some 3, false, none, false, none, false⟩,
   ⟨"Avalanche", .legendary, none, some 1, false, some 999, false, none, false⟩,
   ⟨"Glorious Moment", .legendary, none, some 1, false, some 999, true, none, false⟩,
   ⟨"Beast Master", .legendary, none, some 1, false, some 999, true, none, false⟩,
   ⟨"Cash Cow", .legendary, none, some 1, false, some 999, false, none, false⟩,
   ⟨"Boots of Swiftness", .legendary, none, some 1, false, some 999, true, none, false⟩]

/-- The card catalogue of `src/deck.py` lines 283-341, built by running the
module-level registrations in source order.  `Card.name_map` starts with the
two manual "Loot and Scoot" aliases; `moc_power`, `p2w_power` and
`taa_power` are read back from `Card.card_lookup` exactly where the source
reads them. -/
def buildCatalogue : Option RegState :=
  let st0 : RegState := ⟨[], [("LOOT & SCOOT", "LAS"), ("LOOT N\x27 SCOOT", "LAS")]⟩
  match regMany st0 commonArgs with
  | none => none
  | some st1 =>
    match alookup st1.card_lookup "SNE", alookup st1.card_lookup "STA",
          alookup st1.card_lookup "TRH", alookup st1.card_lookup "EMS" with
    | some sne, some sta, some trh, some ems =>
      let moc_power := 6 + sne.power + sta.power + trh.power + ems.power
      match registerArgs st1
          ⟨"Moment of Clarity", .common, some 6, none, true, some moc_power,
           false, none, true⟩ with
      | none => none
      | some st2 =>
        match regMany st2 mainArgs with
        | none => none
        | some st3 =>
          match alookup st3.card_lookup "EMS", alookup st3.card_lookup "EVA",
                alookup st3.card_lookup "TRH" with
          | some ems2, some eva, some trh2 =>
            let p2w_power := ems2.power * 5 + 8
            let taa_power := eva.power + trh2.power + 2
            regMany st3
              [⟨"Pay to Win", .ethereal, some 3, some 3, true, some p2w_power,
                false, some "P2W", true⟩,
               ⟨"Tactical Approach", .ethereal, some 3, none, true, some taa_power,
                true, none, true⟩,
               ⟨"Porkchop Power", .ethereal, some 3, none, true, none, true, none,
                true⟩]
          | _, _, _ => none
    | _, _, _, _ => none

/-- The catalogue state actually reached at the end of module import
(`buildCatalogue` succeeds; the `getD` default is never used). -/
def CATALOGUE : RegState := buildCatalogue.getD ⟨[], []⟩

/-- `Card.card_lookup` after the module-level registrations. -/
def card_lookup : List (String × Card) := CATALOGUE.card_lookup

/-- `Card.name_map` after the module-level registrations. -/
def name_map : List (String × String) := CATALOGUE.name_map

/-! ## Deck model (`src/deck.py` lines 105-280) -/

/-- A `Deck`: the `cards` association list embeds the
`defaultdict(lambda: 0, ...)` mapping short names to counts (absent keys
count 0); `allow_negative` is carried but — exactly as in the source —
never consulted by any validation. -/
structure Deck where
  cards : List (String × Int)
  allow_negative : Bool
deriving DecidableEq, Repr

/-- Reading `deck.cards[code]` (0 for an absent key, per the defaultdict). -/
def Deck.count (d : Deck) (code : String) : Int :=
  (alookup d.cards code).getD 0

/-- `re.split(r",\w*", s)`: Python splits at every comma AND consumes the
word characters that follow it (the `\w*` is greedy), so the piece after a
comma loses its leading word characters.  Implemented as: split at commas,
then drop the leading word characters of every piece but the first. -/
def pySplitCommaW (s : String) : List String :=
  match (splitChar ',' s.data).map String.mk with
  | [] => []
  | t :: ts => t :: ts.map (fun u => String.mk (u.data.dropWhile isWordChar))

/-- `re.match` result for one token: the `name` group and the optional
`count` group (already converted: a missing or empty group is `none`). -/
abbrev TokenMatch := String × Option Int

/-- Runs-tab pattern `(?P<name>[A-Z\d]{3})(?:x(?P<count>\d+))?$`. -/
def matchRuns (t : List Char) : Option TokenMatch :=
  match t with
  | c1 :: c2 :: c3 :: rest =>
      if isUpperDigitChar c1 && isUpperDigitChar c2 && isUpperDigitChar c3 then
        match rest with
        | [] => some (String.mk [c1, c2, c3], none)
        | 'x' :: ds =>
            if ds ≠ [] && ds.all isDigitChar then
              some (String.mk [c1, c2, c3], some (digitsVal ds))
            else none
        | _ => none
      else none
  | _ => none

/-- Cards-Acquired pattern `(?P<name>[A-Z\d]{3})(?P<count>[+-]\d+)$`. -/
def matchAcquired (t : List Char) : Option TokenMatch :=
  match t with
  | c1 :: c2 :: c3 :: sign :: ds =>
      if isUpperDigitChar c1 && isUpperDigitChar c2 && isUpperDigitChar c3 &&
         (sign = '+' || sign = '-') && ds ≠ [] && ds.all isDigitChar then
        some (String.mk [c1, c2, c3],
              some (if sign = '-' then -(digitsVal ds) else digitsVal ds))
      else none
  | _ => none

/-- Character class `[ A-Za-z']` of the Card-Stats name group. -/
def isStatsChar (c : Char) : Bool :=
  c.toNat = 32 || isAlphaChar c || c.toNat = 39

/-- Card-Stats pattern `(?:(?P<count>\d*) )?(?P<name>[ A-Za-z']{4,})$` with
Python's greedy backtracking: the optional group is taken when the maximal
digit prefix is followed by a space and a valid name of length ≥ 4 remains;
otherwise the whole token must be a valid name of length ≥ 4.  An empty
`count` group is reported as `none` (falsy in Python, so count defaults). -/
def matchStats (t : List Char) : Option TokenMatch :=
  let ds := t.takeWhile isDigitChar
  let rest := t.drop ds.length
  let noGroup : Option TokenMatch :=
    if t.length ≥ 4 && t.all isStatsChar then some (String.mk t, none) else none
  match rest with
  | ' ' :: body =>
      if body.length ≥ 4 && body.all isStatsChar then
        some (String.mk body, if ds = [] then none else some (digitsVal ds))
      else noGroup
  | _ => noGroup

/-- Outcome of trying one pattern against all tokens of a string
(`Deck.from_str`'s inner loop): `crash` models an uncaught `KeyError` from
`Card.name_map`, `noMatch` the `deck = None; break` path (try the next
pattern), `ok` a completed deck dict. -/
inductive ParseOut
  | crash
  | noMatch
  | ok (cards : List (String × Int))
deriving DecidableEq, Repr

/-- Try one pattern against every token: all tokens must match; tokens
containing "VICTORY TOME" or "VT" are skipped; matched names are upper-cased
and resolved through `Card.name_map` (an unknown name raises); counts
default to 1 when the group is missing/empty; a repeated card overwrites
(`deck[s_name] = count`). -/
def runPattern (m : List Char → Option TokenMatch) (nm : List (String × String)) :
    List String → List (String × Int) → ParseOut
  | [], acc => .ok acc
  | tok :: rest, acc =>
      match m tok.data with
      | none => .noMatch
      | some (nme, cnt) =>
          let card_str := upStr nme
          if containsSub card_str "VICTORY TOME" || containsSub card_str "VT" then
            runPattern m nm rest acc
          else
            match alookup nm card_str with
            | none => .crash
            | some s_name => runPattern m nm rest (alistSet acc s_name (cnt.getD 1))

/-- `Deck.from_str` (lines 143-197): split on `,\w*`, try the three
patterns in order, build the deck from the first pattern matching every
token; `none` models the raised `ValueError` (no pattern fits) or an
uncaught `KeyError` (unknown card name). -/
def from_str (s : String) : Option Deck :=
  let toks := pySplitCommaW s
  match runPattern matchRuns name_map toks [] with
  | .crash => none
  | .ok d => some ⟨d, false⟩
  | .noMatch =>
    match runPattern matchAcquired name_map toks [] with
    | .crash => none
    | .ok d => some ⟨d, false⟩
    | .noMatch =>
      match runPattern matchStats name_map toks [] with
      | .crash => none
      | .ok d => some ⟨d, false⟩
      | .noMatch => none

/-- A `Deck(...)` constructor source argument. -/
inductive DeckSource
  | str (s : String)
  | map (m : List (String × Int))

/-- `Deck.__init__`/`__post_init__` (lines 132-141).  For a string source
the code runs `return self.from_str(source)` — but `from_str` is a
classmethod whose fresh Deck is **discarded** (a `__post_init__` return
value is ignored), so the constructed instance keeps its default empty
`cards` dict; a parse failure still propagates.  No negative-count check of
any kind is performed, `allow_negative` notwithstanding. -/
def deckInit (source : Option DeckSource) (allow_negative : Bool) : Option Deck :=
  match source with
  | none => some ⟨[], allow_negative⟩
  | some (.map m) => some ⟨m, allow_negative⟩
  | some (.str s) => (from_str s).map (fun _ => ⟨[], allow_negative⟩)

/-- One `new_cards[s_name] += count` on a defaultdict: add to an existing
key, or append the new key (with value `0 + count`) at the end. -/
def bump (a : List (String × Int)) (k : String) (v : Int) : List (String × Int) :=
  if (alookup a k).isSome then alistAdd a k v else a ++ [(k, v)]

/-- The merged dict built by `Deck.__add__`'s loop
(`new_cards[s_name] += count` over the right operand's entries, on the left
operand's defaultdict). -/
def mergeCards (a : List (String × Int)) : List (String × Int) → List (String × Int)
  | [] => a
  | (k, v) :: t => mergeCards (bump a k v) t

/-- `Deck.__add__` for a Deck right operand: `new_cards = self.cards`
aliases the left operand's dict, which the loop then mutates; the function
returns the pair (left operand after the call, `Deck(new_cards)`).  Note
`Deck(new_cards)` copies the dict into a fresh defaultdict with
`allow_negative` back at its default `False`. -/
def deckAddDeck (d1 d2 : Deck) : Deck × Deck :=
  let m := mergeCards d1.cards d2.cards
  ({d1 with cards := m}, ⟨m, false⟩)

/-- A right operand of `Deck.__add__`. -/
inductive Operand
  | deck (d : Deck)
  | card (short : String)
  | rawStr (s : String)
  | rawMap (m : List (String × Int))
  | rawNone
  | junk

/-- `Deck.__add__` (lines 243-259): a Deck merges directly; a Card adds a
one-card deck; any other operand is first passed to
`Deck(__o, allow_negative=True)` inside `try:` — a failed construction (or
anything else raised there) yields `NotImplemented`, embedded as `none`.
A successfully parsed *string* operand contributes the **empty** deck (see
`deckInit`).  The result pair is (left operand after the call, new deck). -/
def deckAdd (d : Deck) : Operand → Option (Deck × Deck)
  | .deck d2 => some (deckAddDeck d d2)
  | .card short => some (deckAddDeck d ⟨[(short, 1)], true⟩)
  | .rawStr s =>
      match from_str s with
      | some _ => some (deckAddDeck d ⟨[], true⟩)
      | none => none
  | .rawMap m => some (deckAddDeck d ⟨m, true⟩)
  | .rawNone => some (deckAddDeck d ⟨[], true⟩)
  | .junk => none

/-- `Deck.size` (lines 223-226). -/
def Deck.size (d : Deck) : Int :=
  (d.cards.map (·.2)).sum

/-- The terms `Card.card_lookup[s_name].power * count` of `Deck.power`'s
generator sum; `none` models the `KeyError` on an unregistered code. -/
def powerTerms : List (String × Int) → Option (List Int)
  | [] => some []
  | e :: t =>
      match alookup card_lookup e.1 with
      | none => none
      | some c =>
          match powerTerms t with
          | none => none
          | some r => some (c.power * e.2 :: r)

/-- `Deck.power` (lines 199-221): Σ card_lookup[s].power × count (a
`KeyError` on an unregistered code is `none`), minus `7 * (10 - size)` when
`size < 10`, plus the normalisation constant 40. -/
def Deck.power (d : Deck) : Option Int :=
  match powerTerms d.cards with
  | none => none
  | some terms =>
      let p := terms.sum
      let p := if d.size < 10 then p - 7 * (10 - d.size) else p
      some (p + 40)

/-- Python `",".join(...)`. -/
def joinComma : List String → String
  | [] => ""
  | [x] => x
  | x :: xs => x ++ "," ++ joinComma xs

/-- `Deck.__str__` (lines 266-268): comma-joined `<code>x<count>` tokens
(count-0 entries included). -/
def deckToStr (d : Deck) : String :=
  joinComma (d.cards.map (fun e => e.1 ++ "x" ++ toString e.2))

/-- `Deck.strip_ethereal_cards` (lines 271-280): keep the entries whose
card is not an `EtherealCard`; an unregistered code raises (`none`). -/
def strip_ethereal_cards (d : Deck) : Option Deck :=
  match d.cards.foldrM
      (fun e acc => (alookup card_lookup e.1).map
        (fun c => if c.is_ethereal then acc else e :: acc)) [] with
  | none => none
  | some kept => some ⟨kept, false⟩

/-! ## `calculate_deck_stats` (`src/data/parse.py` lines 287-344) -/

/-- One input row of `calculate_deck_stats`: hermit, hermit run number,
`ethereal cards` cell and `purchases` cell (a missing cell is `None`). -/
structure RunRow where
  hermit : String
  run_num : Nat
  ethereal : Option Deck
  purchases : Option Deck

/-- `current + cell` where `cell` is a Deck or `None` (`None` goes through
`Deck(None, allow_negative=True)`, i.e. the empty deck); only the new deck
is needed here. -/
def addCell (d : Deck) (cell : Option Deck) : Deck :=
  (deckAddDeck d (cell.getD ⟨[], true⟩)).2

/-- The loop body of `calculate_deck_stats`: look up the player's current
deck (the `defaultdict` lazily calls `Deck.from_str("SNE,TRH")` on first
access — `none` if that raises), add the ethereal cards, optionally strip
ethereal entries, record the run deck, then persist
`strip_ethereal(run deck) + purchases` as the new current deck. -/
def calcStep (ignore_ethereal_cards : Bool)
    (st : List (String × Deck) × List (String × Nat × Deck)) (row : RunRow) :
    Option (List (String × Deck) × List (String × Nat × Deck)) :=
  match (match alookup st.1 row.hermit with
         | some d => some d
         | none => from_str "SNE,TRH") with
  | none => none
  | some current =>
      let run_deck := addCell current row.ethereal
      match (if ignore_ethereal_cards then strip_ethereal_cards run_deck
             else some run_deck) with
      | none => none
      | some run_deck =>
          match strip_ethereal_cards run_deck with
          | none => none
          | some stripped =>
              some (alistSet st.1 row.hermit (addCell stripped row.purchases),
                    st.2 ++ [(row.hermit, row.run_num, run_deck)])

/-- `calculate_deck_stats` (default `attr=None`, `replace_nan=False`; the
pandas table assembly is presentation and is not modelled): `max(...)` of
the run numbers raises on an empty input; then every row is processed in
order.  Returns (final current decks, recorded (hermit, run, deck) cells). -/
def calculate_deck_stats (ignore_ethereal_cards : Bool) (rows : List RunRow) :
    Option (List (String × Deck) × List (String × Nat × Deck)) :=
  match rows with
  | [] => none
  | _ => rows.foldlM (calcStep ignore_ethereal_cards) ([], [])

/-! ## Gap-bridging series (`src/data/plot.py`, `plot_series` lines 345-367) -/

/-- The interpolation helper of `DeckStatsFigure.plot_series`, as a function
of the (ascending) index positions holding finite values.  Interior
positions (`index[1:-1]`) are dropped when both neighbouring positions are
present; the first position is dropped when its successor is present; the
"last" special case reads `interpolated_s.index[0]` — the *first* position
again — and drops it when its predecessor is present.  Dropped positions are
set to NaN, so the bridging series retains the remaining positions.  `none`
models the `IndexError` of `index[0]` on an all-NaN series. -/
def bridgeSeries (idxs : List Int) : Option (List Int) :=
  match idxs with
  | [] => none
  | h :: _ =>
      let interior := (idxs.drop 1).dropLast
      let dropsInterior :=
        interior.filter (fun i => decide ((i + 1) ∈ idxs) && decide ((i - 1) ∈ idxs))
      let dropsFirst := if (h + 1) ∈ idxs then [h] else []
      let dropsLast := if (h - 1) ∈ idxs then [h] else []
      some (idxs.filter (fun i =>
        !(decide (i ∈ dropsInterior) || decide (i ∈ dropsFirst) ||
          decide (i ∈ dropsLast))))

/-! ## Focus/visibility state machine (`src/data/plot.py` lines 55-208, 447-496) -/

/-- The four global name-sets of `DeckStatsFigure` (Python `set[str]`,
embedded as lists read up to membership). -/
structure FigState where
  focused_lines : List String
  unfocused_lines : List String
  hidden_lines : List String
  visible_lines : List String
deriving DecidableEq, Repr

/-- `set.add`: no-op when present. -/
def sadd (l : List String) (x : String) : List String :=
  if x ∈ l then l else x :: l

/-- `set.remove`: raises `KeyError` when absent (`none`). -/
def sremove (l : List String) (x : String) : Option (List String) :=
  if x ∈ l then some (l.erase x) else none

/-- Python `set` equality (`!=` in `on_click` compares as sets). -/
def seq (l1 l2 : List String) : Bool :=
  l1.all (· ∈ l2) && l2.all (· ∈ l1)

/-- `LineInfo.focus` (lines 55-95): no-op for hidden or already-focused
groups; otherwise move the name from the unfocused set to the focused set. -/
def focusLine (st : FigState) (name : String) : Option FigState :=
  if name ∈ st.hidden_lines then some st
  else if name ∈ st.focused_lines then some st
  else
    match sremove st.unfocused_lines name with
    | none => none
    | some u => some {st with unfocused_lines := u,
                              focused_lines := sadd st.focused_lines name}

/-- `LineInfo.unfocus` (lines 97-138): no-op for hidden or
already-unfocused groups; otherwise add to unfocused, remove from focused. -/
def unfocusLine (st : FigState) (name : String) : Option FigState :=
  if name ∈ st.hidden_lines then some st
  else if name ∈ st.unfocused_lines then some st
  else
    let u := sadd st.unfocused_lines name
    match sremove st.focused_lines name with
    | none => none
    | some f => some {st with unfocused_lines := u, focused_lines := f}

/-- `LineInfo.show` (lines 140-172): no-op when already visible; otherwise
move hidden→visible, add to focused, then immediately `unfocus`. -/
def showLine (st : FigState) (name : String) : Option FigState :=
  if name ∈ st.visible_lines then some st
  else
    match sremove st.hidden_lines name with
    | none => none
    | some h =>
        let st := {st with hidden_lines := h,
                           visible_lines := sadd st.visible_lines name,
                           focused_lines := sadd st.focused_lines name}
        unfocusLine st name

/-- `LineInfo.hide` (lines 174-208): no-op when already hidden; otherwise
move visible→hidden, call `unfocus` (which — the name now being in
`hidden_lines` — returns immediately) and remove the name from the
unfocused set if present. -/
def hideLine (st : FigState) (name : String) : Option FigState :=
  if name ∈ st.hidden_lines then some st
  else
    match sremove st.visible_lines name with
    | none => none
    | some v =>
        let st := {st with hidden_lines := sadd st.hidden_lines name,
                           visible_lines := v}
        match unfocusLine st name with
        | none => none
        | some st =>
            some {st with unfocused_lines :=
                    if name ∈ st.unfocused_lines
                    then st.unfocused_lines.erase name
                    else st.unfocused_lines}

/-- Mouse buttons handled by `on_click`. -/
inductive Button
  | left | right

/-- `DeckStatsFigure.on_click` (lines 473-496): left-click hides every
unfocused group (or, when none is unfocused, shows every hidden group);
right-click hides every focused group; the hides are skipped when the
target set equals the currently visible set. -/
def on_click (st : FigState) (button : Button) : Option FigState :=
  let (lines_to_hide, lines_to_show) :=
    match button with
    | .left =>
        if st.unfocused_lines ≠ [] then (st.unfocused_lines, [])
        else ([], st.hidden_lines)
    | .right => (st.focused_lines, [])
  match (if seq lines_to_hide st.visible_lines then some st
         else lines_to_hide.foldlM hideLine st) with
  | none => none
  | some st => lines_to_show.foldlM showLine st

/-- `DeckStatsFigure.on_hover`, abstracted over the geometric containment
test: each (name, contained?) decision focuses or unfocuses that group, in
event-loop order. -/
def on_hover (st : FigState) (decisions : List (String × Bool)) :
    Option FigState :=
  decisions.foldlM
    (fun st d => if d.2 then focusLine st d.1 else unfocusLine st d.1) st

/-- The user-visible operations of the interaction state machine. -/
inductive ChartOp
  | focus (name : String)
  | unfocus (name : String)
  | show_ (name : String)
  | hide (name : String)
  | hover (decisions : List (String × Bool))
  | click (button : Button)

/-- Run one operation. -/
def runOp (st : FigState) : ChartOp → Option FigState
  | .focus n => focusLine st n
  | .unfocus n => unfocusLine st n
  | .show_ n => showLine st n
  | .hide n => hideLine st n
  | .hover ds => on_hover st ds
  | .click b => on_click st b

/-- Run a sequence of operations. -/
def runOps (st : FigState) (ops : List ChartOp) : Option FigState :=
  ops.foldlM runOp st

/-- The state set up at the end of `DeckStatsFigure.__init__` (lines
314-317): nothing focused or hidden, every player group unfocused and
visible. -/
def initFig (players : List String) : FigState :=
  ⟨[], players, [], players⟩

/-! ## Derived count functions used in the statements below -/

/-- The count a dict assigns to a code (0 when absent), i.e. `Deck.count`
at the raw-dict level. -/
def acount (l : List (String × Int)) (c : String) : Int :=
  (alookup l c).getD 0

/-- Total of all values a (possibly duplicated-key) entry list carries for
a code — the specification-side "sum of the operands' counts". -/
def sumCounts (l : List (String × Int)) (c : String) : Int :=
  ((l.filter (fun e => e.1 = c)).map (·.2)).sum

/-! # Theorems -/

/-! ## Supporting lemmas -/

theorem acount_bump (a : List (String × Int)) (k : String) (v : Int) (c : String) :
    acount (bump a k v) c = acount a c + (if k = c then v else 0) := by
  induction a with
  | nil =>
      by_cases hc : k = c <;> simp [bump, alookup, acount, hc]
  | cons e t ih =>
      obtain ⟨k', v'⟩ := e
      by_cases hk : k' = k
      · subst hk
        by_cases hc : k' = c
        · simp [bump, alookup, alistAdd, acount, hc]
        · simp [bump, alookup, alistAdd, acount, hc]
      · have hlk : alookup ((k', v') :: t) k = alookup t k := by
          simp [alookup, hk]
        by_cases hs : (alookup t k).isSome
        · have hb : bump ((k', v') :: t) k v = (k', v') :: alistAdd t k v := by
            simp [bump, hlk, hs, alistAdd, hk]
          have ih' : acount (alistAdd t k v) c = acount t c + (if k = c then v else 0) := by
            have := ih
            simpa only [bump, hs, if_true] using this
          rw [hb]
          by_cases hc : k' = c
          · have hkc : ¬(k = c) := fun h => hk (hc ▸ h ▸ rfl)
            simp [acount, alookup, hc, hkc]
          · simp [acount, alookup, hc] at ih' ⊢
            exact ih'
        · have hb : bump ((k', v') :: t) k v = (k', v') :: (t ++ [(k, v)]) := by
            simp [bump, hlk, hs]
          have ih' : acount (t ++ [(k, v)]) c = acount t c + (if k = c then v else 0) := by
            have := ih
            simpa only [bump, hs, if_false] using this
          rw [hb]
          by_cases hc : k' = c
          · have hkc : ¬(k = c) := fun h => hk (hc ▸ h ▸ rfl)
            simp [acount, alookup, hc, hkc]
          · simp [acount, alookup, hc] at ih' ⊢
            exact ih'

theorem acount_mergeCards (b a : List (String × Int)) (c : String) :
    acount (mergeCards a b) c = acount a c + sumCounts b c := by
  induction b generalizing a with
  | nil => simp [mergeCards, sumCounts]
  | cons e t ih =>
      obtain ⟨k, v⟩ := e
      rw [show mergeCards a ((k, v) :: t) = mergeCards (bump a k v) t from rfl,
          ih (bump a k v), acount_bump]
      by_cases hc : k = c
      · simp [sumCounts, hc]
        try omega
      · simp [sumCounts, hc]
        try omega

theorem sumCounts_of_not_mem : ∀ {t : List (String × Int)} {c : String},
    c ∉ t.map Prod.fst → sumCounts t c = 0 := by
  intro t c h
  induction t with
  | nil => simp [sumCounts]
  | cons e t ih =>
      simp only [List.map_cons, List.mem_cons, not_or] at h
      have hne : ¬(e.1 = c) := fun hh => h.1 hh.symm
      have ht := ih h.2
      simp only [sumCounts] at ht ⊢
      simp [hne, ht]

theorem sumCounts_eq_acount : ∀ {b : List (String × Int)} {c : String},
    (b.map Prod.fst).Nodup → sumCounts b c = acount b c := by
  intro b c h
  induction b with
  | nil => simp [sumCounts, acount, alookup]
  | cons e t ih =>
      obtain ⟨k, v⟩ := e
      simp only [List.map_cons, List.nodup_cons] at h
      by_cases hc : k = c
      · subst hc
        have h0 : sumCounts t k = 0 := sumCounts_of_not_mem (by simpa using h.1)
        simp only [sumCounts] at h0
        simp [sumCounts, acount, alookup, h0]
      · have ht := ih h.2
        simp only [sumCounts, acount] at ht
        simp [sumCounts, acount, alookup, hc, ht]

theorem powerTerms_of_known {l : List (String × Int)}
    (h : ∀ e ∈ l, (alookup card_lookup e.1).isSome) :
    powerTerms l =
      some (l.map (fun e =>
        ((alookup card_lookup e.1).map Card.power).getD 0 * e.2)) := by
  induction l with
  | nil => rfl
  | cons e t ih =>
      have he := h e (by simp)
      obtain ⟨cd, hcd⟩ := Option.isSome_iff_exists.mp he
      have ht := ih (fun x hx => h x (by simp [hx]))
      simp [powerTerms, hcd, ht]

theorem bridge_keeps_last (idxs : List Int) (hne : idxs ≠ [])
    (hs : idxs.Sorted (· < ·)) :
    ∃ l, bridgeSeries idxs = some l ∧ idxs.getLast hne ∈ l := by
  match idxs, hne with
  | h :: t, hne =>
  refine ⟨_, rfl, ?_⟩
  rw [List.mem_filter]
  rcases List.eq_nil_or_concat t with ht | ⟨t', x, ht⟩
  · subst ht
    refine ⟨by simp, ?_⟩
    simp [List.getLast]
  · rw [List.concat_eq_append] at ht
    have htne : t ≠ [] := by simp [ht]
    have hg : (h :: t).getLast hne = x := by
      rw [List.getLast_cons htne]
      subst ht
      simp [List.getLast_append]
    rw [hg]
    have hsort := (List.sorted_cons.mp hs)
    have hxt : x ∈ t := by simp [ht]
    have hhx : h < x := hsort.1 x hxt
    have hnd : t.Nodup := hsort.2.nodup
    have hx_not_dropLast : x ∉ t.dropLast := by
      subst ht
      rw [List.dropLast_concat]
      have := List.nodup_append.mp hnd
      intro hmem
      exact (this.2.2 hmem) (by simp)
    constructor
    · exact List.mem_cons_of_mem h hxt
    · simp only [Bool.not_eq_true']
      simp only [Bool.or_eq_false_iff, decide_eq_false_iff_not]
      refine ⟨⟨?_, ?_⟩, ?_⟩
      · intro hmem
        have hx2 : x ∈ ((h :: t).drop 1).dropLast := List.mem_of_mem_filter hmem
        simp only [List.drop_one, List.tail_cons] at hx2
        exact hx_not_dropLast hx2
      · intro hmem
        have : x = h := by
          by_cases hc : (h + 1) ∈ (h :: t)
          · simp [hc] at hmem; exact hmem
          · simp [hc] at hmem
        omega
      · intro hmem
        have : x = h := by
          by_cases hc : (h - 1) ∈ (h :: t)
          · simp [hc] at hmem; exact hmem
          · simp [hc] at hmem
        omega

/-! ## Claim theorems -/

/-- C1: the claim says `calculate_deck_stats` lazily initialises each
player's current deck by parsing `"SNE,TRH"` into 1 Sneak + 1 Treasure
Hunter, and that a purchase-free player's first recorded run deck equals
that starting deck plus the run's ethereal cards.  In fact
`Deck.from_str("SNE,TRH")` raises: `re.split(r",\w*", ...)` consumes the
letters after the comma, leaving an empty token that matches no grammar, so
the simulation crashes on its very first row instead of recording any deck. -/
theorem C1_starting_deck_parse_crashes :
    from_str "SNE,TRH" = none ∧
    calculate_deck_stats false [⟨"Etho", 1, none, none⟩] = none :=
  ⟨by decide, by decide⟩

/-- C2: the claim says any deck built from a valid run-record string
serialises (`<code>x<count>` comma-joined) and re-parses to the same
counts.  A deck holding 1 Sneak + 1 Treasure Hunter serialises to
`"SNEx1,TRHx1"`, but re-parsing that string raises (the `,\w*` split makes
every comma-separated serialisation unparseable); only single-entry decks
round-trip. -/
theorem C2_roundtrip_fails :
    deckToStr ⟨[("SNE", 1), ("TRH", 1)], false⟩ = "SNEx1,TRHx1" ∧
    from_str "SNEx1,TRHx1" = none ∧
    (from_str "SNEx2").map deckToStr = some "SNEx2" :=
  ⟨by decide, by decide, by decide⟩

/-- C3: `Deck.power` equals Σ(card power × count), reduced by
`7 * (10 - size)` exactly when `size < 10`, then increased by the
normalisation constant 40 — for every deck whose codes are all registered
(an unregistered code raises `KeyError`). -/
theorem C3_power_formula (d : Deck)
    (h : ∀ e ∈ d.cards, (alookup card_lookup e.1).isSome) :
    d.power = some
      ((d.cards.map (fun e =>
          ((alookup card_lookup e.1).map Card.power).getD 0 * e.2)).sum
        - (if d.size < 10 then 7 * (10 - d.size) else 0) + 40) := by
  have ht := powerTerms_of_known h
  unfold Deck.power
  rw [ht]
  by_cases hlt : d.size < 10
  · simp only [hlt, if_true, Option.some.injEq]
    try omega
  · simp only [hlt, if_false, Option.some.injEq]
    try omega

/-- Witness for C3 at the starting deck {SNE:1, TRH:1}: size 2, raw power
16, penalty 56, normalisation +40, hence power 0. -/
theorem C3_power_formula_witness :
    Deck.power ⟨[("SNE", 1), ("TRH", 1)], false⟩ = some 0 := by
  have h := C3_power_formula ⟨[("SNE", 1), ("TRH", 1)], false⟩ (by decide)
  rw [h]
  decide

/-- C4 counterexample: with finite values at positions {1,2,4,5} (3
missing) the bridging series of `plot_series` retains {2,4,5} — position 5
is *not* dropped, contradicting the claimed {2,4}; and with finite values
at {1,3,5} it retains all three positions, not the claimed empty series. -/
theorem C4_gap_bridging_counterexample :
    bridgeSeries [1, 2, 4, 5] = some [2, 4, 5] ∧
    bridgeSeries [1, 2, 4, 5] ≠ some [2, 4] ∧
    bridgeSeries [1, 3, 5] ≠ some [] :=
  ⟨by decide, by decide, by decide⟩

/-- C4 (amended): interior finite points are dropped exactly when both
neighbouring positions are present; the *first* finite point is dropped
when its successor is present; the *last* finite point is never dropped,
because the "last point" special case reads `interpolated_s.index[0]` — the
first position again.  Hence {1,2,4,5} bridges to {2,4,5}, {1,3,5} bridges
to {1,3,5}, and in general the last finite point always survives into the
bridging series. -/
theorem C4_gap_bridging_amended :
    bridgeSeries [1, 2, 4, 5] = some [2, 4, 5] ∧
    bridgeSeries [1, 3, 5] = some [1, 3, 5] ∧
    ∀ (idxs : List Int) (hne : idxs ≠ []), idxs.Sorted (· < ·) →
      ∃ l, bridgeSeries idxs = some l ∧ idxs.getLast hne ∈ l :=
  ⟨by decide, by decide, bridge_keeps_last⟩

/-- Witness for C4 (amended) at {1,2,4,5}: the last finite point 5 is in
the bridging series. -/
theorem C4_gap_bridging_amended_witness :
    ∃ l, bridgeSeries [1, 2, 4, 5] = some l ∧ (5 : Int) ∈ l :=
  C4_gap_bridging_amended.2.2 [1, 2, 4, 5] (by decide) (by decide)

/-- C5: the claim says no reachable chart state puts a player group in the
hidden set and the focused set at once.  But `LineInfo.hide` inserts the
name into `hidden_lines` *before* calling `unfocus`, and `unfocus` no-ops
on hidden names — so focusing "A" and right-clicking (hide all focused)
leaves "A" hidden *and* focused. -/
theorem C5_hidden_group_reports_focused :
    ∃ s, runOps (initFig ["A", "B"]) [.focus "A", .click .right] = some s ∧
      "A" ∈ s.hidden_lines ∧ "A" ∈ s.focused_lines :=
  ⟨⟨["A"], ["B"], ["A"], ["B"]⟩, by decide, by decide, by decide⟩

/-- C6: the claim (and the `Deck` docstring) say constructing a deck from a
mapping with a negative count fails unless `allow_negative` permits it.
`Deck.__post_init__` performs no such check: the mapping {SNE: -1} is
accepted with `allow_negative=False`, and even `from_str "SNE-1"` returns a
deck carrying count -1 (built with the default `allow_negative=False`). -/
theorem C6_negative_counts_accepted :
    deckInit (some (.map [("SNE", -1)])) false = some ⟨[("SNE", -1)], false⟩ ∧
    from_str "SNE-1" = some ⟨[("SNE", -1)], false⟩ :=
  ⟨rfl, by decide⟩

/-- C7: the claim says a click can never blank the chart (a hide whose
target equals the visible set is skipped).  After focus "A", right-click,
focus "B" the visible set is {B} (non-empty); the next right-click targets
the focused set {A, B} — which, because the hidden "A" wrongly stayed
focused, differs from the visible set {B}, so the guard passes and the
click hides everything. -/
theorem C7_click_can_blank_chart :
    (runOps (initFig ["A", "B"]) [.focus "A", .click .right, .focus "B"]).map
        (fun s => s.visible_lines) = some ["B"] ∧
    (runOps (initFig ["A", "B"])
        [.focus "A", .click .right, .focus "B", .click .right]).map
        (fun s => s.visible_lines) = some [] :=
  ⟨by decide, by decide⟩

/-- C8: adding two decks yields a deck whose count for every code is the
sum of the operands' counts (codes unique to either side keep their
counts); an operand that cannot be interpreted as a Deck or a Card
(an unparseable string, or a non-iterable object) yields the
`NotImplemented` sentinel instead of raising. -/
theorem C8_deck_addition :
    (∀ (d1 d2 : Deck) (code : String), (d2.cards.map Prod.fst).Nodup →
        (deckAdd d1 (.deck d2)).map (fun p => p.2.count code) =
          some (d1.count code + d2.count code)) ∧
    (∀ (d : Deck) (s : String), from_str s = none →
        deckAdd d (.rawStr s) = none) ∧
    (∀ d : Deck, deckAdd d .junk = none) := by
  refine ⟨?_, ?_, ?_⟩
  · intro d1 d2 code hnd
    have hm := acount_mergeCards d2.cards d1.cards code
    rw [sumCounts_eq_acount hnd] at hm
    simp only [acount] at hm
    simp [deckAdd, deckAddDeck, Deck.count, hm]
  · intro d s h
    simp [deckAdd, h]
  · intro d
    rfl

/-- Witness for C8: {SNE:1} + {SNE:2, TRH:1} counts SNE as 3, and adding
the unparseable string "garbage" is `NotImplemented`. -/
theorem C8_deck_addition_witness :
    (deckAdd ⟨[("SNE", 1)], false⟩ (.deck ⟨[("SNE", 2), ("TRH", 1)], false⟩)).map
        (fun p => p.2.count "SNE") = some 3 ∧
    deckAdd ⟨[], false⟩ (.rawStr "garbage") = none := by
  constructor
  · have h := C8_deck_addition.1 ⟨[("SNE", 1)], false⟩
      ⟨[("SNE", 2), ("TRH", 1)], false⟩ "SNE" (by decide)
    rw [h]
    decide
  · exact C8_deck_addition.2.1 ⟨[], false⟩ "garbage" (by decide)

/-- C10: `d1 + d2` on decks both returns a fresh Deck with the merged
counts *and* leaves the left operand's own dict mutated to those same
merged counts (`new_cards = self.cards` aliases, the loop mutates it). -/
theorem C10_add_mutates_left_operand :
    ∀ (d1 d2 : Deck) (code : String), (d2.cards.map Prod.fst).Nodup →
      (deckAdd d1 (.deck d2)).map (fun p => (p.1.count code, p.2.count code)) =
        some (d1.count code + d2.count code, d1.count code + d2.count code) := by
  intro d1 d2 code hnd
  have hm := acount_mergeCards d2.cards d1.cards code
  rw [sumCounts_eq_acount hnd] at hm
  simp only [acount] at hm
  simp [deckAdd, deckAddDeck, Deck.count, hm]

/-- Witness for C10: adding {SNE:1} to itself leaves the left operand
reporting SNE count 2 — no longer its original count 1. -/
theorem C10_add_mutates_left_operand_witness :
    (deckAdd ⟨[("SNE", 1)], false⟩ (.deck ⟨[("SNE", 1)], false⟩)).map
        (fun p => (p.1.count "SNE", p.2.count "SNE")) = some (2, 2) ∧
    Deck.count ⟨[("SNE", 1)], false⟩ "SNE" ≠ 2 := by
  constructor
  · have h := C10_add_mutates_left_operand ⟨[("SNE", 1)], false⟩
      ⟨[("SNE", 1)], false⟩ "SNE" (by decide)
    rw [h]
    decide
  · decide

/-- C9: `Card.__post_init__` fails when the resulting short name is not
exactly 3 characters, when the short name or the upper-cased full name
collides with an existing registration, or when price and power are both
unset; consequently the fully built catalogue exists, its short codes are
pairwise distinct, and every short code is exactly 3 characters. -/
theorem C9_card_registration :
    (∀ (st : RegState) (n : String) (lv : CardLevel) (lim : Option Int)
        (cr pm ie : Bool) (sn : Option String),
        register st n lv none lim cr none pm sn ie = none) ∧
    (∀ (st : RegState) (n : String) (lv : CardLevel) (pr lim pw : Option Int)
        (cr pm ie : Bool) (sn : Option String) (sc : String),
        resolvedShortName (pyStrip n) sn = some sc → sc.length ≠ 3 →
        register st n lv pr lim cr pw pm sn ie = none) ∧
    (∀ (st : RegState) (n : String) (lv : CardLevel) (pr lim pw : Option Int)
        (cr pm ie : Bool) (sn : Option String) (sc : String),
        resolvedShortName (pyStrip n) sn = some sc →
        (alookup st.card_lookup sc).isSome →
        register st n lv pr lim cr pw pm sn ie = none) ∧
    (∀ (st : RegState) (n : String) (lv : CardLevel) (pr lim pw : Option Int)
        (cr pm ie : Bool) (sn : Option String),
        (alookup st.name_map (upStr (pyStrip n))).isSome →
        register st n lv pr lim cr pw pm sn ie = none) ∧
    buildCatalogue.isSome = true ∧
    (card_lookup.map Prod.fst).Nodup ∧
    (∀ e ∈ card_lookup, e.1.length = 3 ∧ e.2.short_name = e.1) := by
  refine ⟨?_, ?_, ?_, ?_, by decide, by decide, by decide⟩
  · intro st n lv lim cr pm ie sn
    rfl
  · intro st n lv pr lim pw cr pm ie sn sc h1 h2
    cases pw with
    | some p => simp [register, h1, h2]
    | none =>
        cases pr with
        | none => rfl
        | some prv => simp [register, h1, h2]
  · intro st n lv pr lim pw cr pm ie sn sc h1 h2
    cases pw with
    | some p => simp [register, h1, h2, ite_self]
    | none =>
        cases pr with
        | none => rfl
        | some prv => simp [register, h1, h2, ite_self]
  · intro st n lv pr lim pw cr pm ie sn h
    cases pw with
    | some p =>
        cases hr : resolvedShortName (pyStrip n) sn with
        | none => simp [register, hr]
        | some sc => simp [register, hr, h, ite_self]
    | none =>
        cases pr with
        | none => rfl
        | some prv =>
            cases hr : resolvedShortName (pyStrip n) sn with
            | none => simp [register, hr]
            | some sc => simp [register, hr, h, ite_self]

/-- Witness for C9: re-registering "Sneak" against the built catalogue
fails (its auto short name "SNE" already exists), and registering a card
with neither price nor power fails. -/
theorem C9_card_registration_witness :
    register CATALOGUE "Sneak" .common (some 7) (some 5) false none false none
      false = none ∧
    register CATALOGUE "Some New Card" .common none (some 3) false none false
      none false = none :=
  ⟨C9_card_registration.2.2.1 CATALOGUE "Sneak" .common (some 7) (some 5) none
      false false false none "SNE" (by decide) (by decide),
   C9_card_registration.1 CATALOGUE "Some New Card" .common (some 3) false
      false false none⟩
